import Mathlib

/-!
Verification of the cart-to-order core of the `imajin` marketplace backend.

The TypeScript source (MikroORM entities plus `cart.service.ts` and
`order.service.ts`) is shallowly embedded here: the relational store is a
record of entity lists plus an id allocator (MikroORM assigns primary keys
at `flush` time), each service function becomes a pure function over that
store, and thrown application errors become `Except` values.  Prices are
embedded as exact integers: the source applies only addition and
multiplication to prices, so every claim here is insensitive to the choice
of exact numeric domain, and exact arithmetic is the lossless decimal
arithmetic the data model prescribes.  Timestamp fields carry no logic relevant to the claims and are
omitted.

`createOrder` performs two separate `em.flush()` calls in the source: the
first commits the `Order` row and every `OrderItem` row, the second commits
the cart-line deletions (`clearCart`, or `em.remove` per selected line,
followed by `flush`).  The embedding mirrors that split: `createOrderPersist`
is the computation up to and including the first flush, `removeConsumedLines`
is the second flush, and `createOrder` is their composition.  An `Except`
error models a throw before any write reached the database.
-/

namespace Imajin

/-- `Product` entity (`product.entity.ts`): id, name, optional description,
decimal price, category reference. -/
structure Product where
  id : Nat
  name : String
  description : Option String
  price : Int
  categoryId : Nat
deriving Repr, DecidableEq, Inhabited

/-- `Cart` entity (`cart.entity.ts`): id and owning user reference. -/
structure Cart where
  id : Nat
  userId : Nat
deriving Repr, DecidableEq, Inhabited

/-- `CartItem` entity (`cart-item.entity.ts`): id, cart reference, product
reference, quantity. -/
structure CartItem where
  id : Nat
  cartId : Nat
  productId : Nat
  quantity : Nat
deriving Repr, DecidableEq, Inhabited

/-- `OrderStatus` enum (`order.entity.ts`). -/
inductive OrderStatus where
  | pending
  | processing
  | completed
  | cancelled
deriving Repr, DecidableEq, Inhabited

/-- `Order` entity (`order.entity.ts`): id, owning user reference, total,
status. -/
structure Order where
  id : Nat
  userId : Nat
  total : Int
  status : OrderStatus
deriving Repr, DecidableEq, Inhabited

/-- `OrderItem` entity (`order-item.entity.ts`): id, order reference, product
reference, quantity, and the snapshotted price.  Note the entity has no name
or description column: the product is stored only as a reference. -/
structure OrderItem where
  id : Nat
  orderId : Nat
  productId : Nat
  quantity : Nat
  price : Int
deriving Repr, DecidableEq, Inhabited

/-- The relational store reached through the MikroORM `EntityManager`: one
list per table plus the id allocator (primary keys are assigned at flush). -/
structure Store where
  products : List Product
  carts : List Cart
  cartItems : List CartItem
  orders : List Order
  orderItems : List OrderItem
  nextId : Nat
deriving Repr, DecidableEq, Inhabited

/-- The application error taxonomy of `error.ts` restricted to the cart/order
core.  Each constructor corresponds to one error class with a fixed message,
so equal constructors are indistinguishable to the caller. -/
inductive AppError where
  | productNotFound
  | cartNotFound
  | itemNotFoundInTheCart
  | cartIsEmpty
  | noValidItemsSelected
  | orderNotFound
deriving Repr, DecidableEq, Inhabited

/-- One entry of the `items` array of `OrderWithItems` (`order.service.ts`):
the persisted line data plus the product summary read from the product
entity the line references. -/
structure OrderItemView where
  id : Nat
  quantity : Nat
  price : Int
  productId : Nat
  productName : String
  productDescription : Option String
  subtotal : Int
deriving Repr, DecidableEq, Inhabited

/-- The `OrderWithItems` view returned by the order service. -/
structure OrderWithItems where
  id : Nat
  total : Int
  status : OrderStatus
  items : List OrderItemView
deriving Repr, DecidableEq, Inhabited

/-- One entry of the `items` array of `CartWithItems` (`cart.service.ts`). -/
structure CartItemView where
  id : Nat
  quantity : Nat
  productId : Nat
  productName : String
  productPrice : Int
  productDescription : Option String
  subtotal : Int
deriving Repr, DecidableEq, Inhabited

/-- The `CartWithItems` view returned by `getCartWithItems`. -/
structure CartWithItems where
  id : Nat
  items : List CartItemView
  total : Int
  itemCount : Nat
deriving Repr, DecidableEq, Inhabited

deriving instance DecidableEq for Except

/-- JavaScript `Array.prototype.includes` on number arrays, as used for
`options.selectedItemIds!.includes(item.id)`. -/
def includes (ids : List Nat) (x : Nat) : Bool :=
  ids.any (fun i => i == x)

/-- `em.findOne(Cart, { user: user })`. -/
def findCart (u : Nat) (s : Store) : Option Cart :=
  s.carts.find? (fun c => c.userId == u)

/-- `getOrCreateCart` (`cart.service.ts`): return the user's cart, creating
and flushing a new one if absent. -/
def getOrCreateCart (u : Nat) (s : Store) : Cart × Store :=
  match findCart u s with
  | some cart => (cart, s)
  | none =>
    let cart : Cart := { id := s.nextId, userId := u }
    (cart, { s with carts := s.carts ++ [cart], nextId := s.nextId + 1 })

/-- `addToCart` (`cart.service.ts`): resolve the product, get or create the
cart, then either increment the existing line for that product or insert a
new line with the given quantity. -/
def addToCart (u productId quantity : Nat) (s : Store) : Except AppError Store :=
  match s.products.find? (fun p => p.id == productId) with
  | none => .error .productNotFound
  | some product =>
    let cs := getOrCreateCart u s
    let cart := cs.1
    let s1 := cs.2
    match s1.cartItems.find? (fun it => it.cartId == cart.id && it.productId == productId) with
    | some existingItem =>
      .ok { s1 with
              cartItems := s1.cartItems.map (fun it =>
                if it.id == existingItem.id then
                  { it with quantity := it.quantity + quantity }
                else it) }
    | none =>
      let cartItem : CartItem :=
        { id := s1.nextId, cartId := cart.id, productId := product.id, quantity := quantity }
      .ok { s1 with cartItems := s1.cartItems ++ [cartItem], nextId := s1.nextId + 1 }

/-- The `populate: [items, items.product]` eager load of one cart: the cart's
lines joined with the product each references. -/
def cartLinesOf (cartId : Nat) (s : Store) : List (CartItem × Product) :=
  (s.cartItems.filter (fun it => it.cartId == cartId)).filterMap (fun it =>
    (s.products.find? (fun p => p.id == it.productId)).map (fun p => (it, p)))

/-- `getCartItems` (`cart.service.ts`): all of the user's cart lines with
product data, or the empty list when the user has no cart. -/
def getCartItems (u : Nat) (s : Store) : List (CartItem × Product) :=
  match findCart u s with
  | none => []
  | some cart => cartLinesOf cart.id s

/-- One item of the cart view, with `subtotal = quantity * product.price`. -/
def mkCartItemView (it : CartItem) (p : Product) : CartItemView :=
  { id := it.id
    quantity := it.quantity
    productId := p.id
    productName := p.name
    productPrice := p.price
    productDescription := p.description
    subtotal := (it.quantity : Int) * p.price }

/-- `getCartWithItems` (`cart.service.ts`): when the user has no cart the
fallback branch calls `getOrCreateCart` (which persists a new cart) and
returns a zero-valued view; otherwise it maps the populated lines and sums
subtotals and quantities. -/
def getCartWithItems (u : Nat) (s : Store) : Store × CartWithItems :=
  match findCart u s with
  | none =>
    let cs := getOrCreateCart u s
    (cs.2, { id := cs.1.id, items := [], total := 0, itemCount := 0 })
  | some cart =>
    let items := (cartLinesOf cart.id s).map (fun ip => mkCartItemView ip.1 ip.2)
    (s, { id := cart.id
          items := items
          total := items.foldl (fun sum item => sum + item.subtotal) 0
          itemCount := items.foldl (fun sum item => sum + item.quantity) 0 })

/-- `clearCart` (`cart.service.ts`): delete every line of the user's cart;
a no-op when the user has no cart. -/
def clearCart (u : Nat) (s : Store) : Store :=
  match findCart u s with
  | none => s
  | some cart =>
    { s with cartItems := s.cartItems.filter (fun it => !(it.cartId == cart.id)) }

/-- `calculateOrderTotal` (`order.service.ts`): `reduce` over the cart items
of `quantity * product.price`, starting from `0`. -/
def calculateOrderTotal (cartItems : List (CartItem × Product)) : Int :=
  cartItems.foldl (fun total ip => total + (ip.1.quantity : Int) * ip.2.price) 0

/-- The `OrderItem` rows built in the `itemsToOrder.map` loop of
`createOrder`: each records the order reference, the product reference, the
line's quantity and the loaded product's price; ids are assigned
sequentially at flush. -/
def buildOrderItems (orderId : Nat) : Nat → List (CartItem × Product) → List OrderItem × Nat
  | n, [] => ([], n)
  | n, ip :: rest =>
    let oi : OrderItem :=
      { id := n, orderId := orderId, productId := ip.2.id
        quantity := ip.1.quantity, price := ip.2.price }
    let built := buildOrderItems orderId (n + 1) rest
    (oi :: built.1, built.2)

/-- Everything `createOrder` has committed once its first `em.flush()`
returns: the store holding the new `Order` and `OrderItem` rows, together
with the in-memory values the rest of the function uses. -/
structure PersistPhase where
  committed : Store
  order : Order
  orderItems : List OrderItem
  itemsToOrder : List (CartItem × Product)
deriving Repr, DecidableEq, Inhabited

/-- The `itemsToOrder` determination of `createOrder`: all cart lines when
no selection was given (`options.selectedItemIds` undefined); otherwise the
cart lines whose id the selection contains.  A present empty array is
truthy in JavaScript and takes the second branch. -/
def workingSet (u : Nat) (sel : Option (List Nat)) (s : Store) :
    List (CartItem × Product) :=
  match sel with
  | some ids => (getCartItems u s).filter (fun ip => includes ids ip.1.id)
  | none => getCartItems u s

/-- `createOrder` (`order.service.ts`) up to and including its first
`em.flush()`: load the cart lines (`CartIsEmpty` when none), filter them by
the selection when one was given (`NoValidItemsSelected` when the filter
leaves nothing), compute the total, and persist the `Order` plus one
`OrderItem` per working-set line. -/
def createOrderPersist (u : Nat) (sel : Option (List Nat)) (s : Store) :
    Except AppError PersistPhase :=
  let cartItems := getCartItems u s
  if cartItems.isEmpty then .error .cartIsEmpty
  else
    let itemsToOrder : List (CartItem × Product) := workingSet u sel s
    if sel.isSome && itemsToOrder.isEmpty then .error .noValidItemsSelected
    else
      let total := calculateOrderTotal itemsToOrder
      let order : Order := { id := s.nextId, userId := u, total := total, status := .pending }
      let built := buildOrderItems order.id (s.nextId + 1) itemsToOrder
      .ok { committed :=
              { s with
                  orders := s.orders ++ [order]
                  orderItems := s.orderItems ++ built.1
                  nextId := built.2 }
            order := order
            orderItems := built.1
            itemsToOrder := itemsToOrder }

/-- The tail of `createOrder` after its first flush: with no selection,
`clearCart` (and its flush); with a selection, `em.remove` of each
working-set line followed by the second `em.flush()`. -/
def removeConsumedLines (u : Nat) (sel : Option (List Nat)) (ph : PersistPhase) : Store :=
  match sel with
  | none => clearCart u ph.committed
  | some _ =>
    { ph.committed with
        cartItems := ph.committed.cartItems.filter (fun it =>
          !(ph.itemsToOrder.any (fun ip => ip.1.id == it.id))) }

/-- One item of the order view: line id, quantity, snapshotted price, the
product summary, and `subtotal = quantity * price`. -/
def mkOrderItemView (oi : OrderItem) (p : Product) : OrderItemView :=
  { id := oi.id
    quantity := oi.quantity
    price := oi.price
    productId := p.id
    productName := p.name
    productDescription := p.description
    subtotal := (oi.quantity : Int) * oi.price }

/-- `createOrder` (`order.service.ts`): the persist phase, the cart-line
removal phase, and the returned view (built from the in-memory order items
and the products loaded with the cart lines). -/
def createOrder (u : Nat) (sel : Option (List Nat)) (s : Store) :
    Except AppError (Store × OrderWithItems) :=
  (createOrderPersist u sel s).map (fun ph =>
    (removeConsumedLines u sel ph,
     { id := ph.order.id
       total := ph.order.total
       status := ph.order.status
       items := List.zipWith (fun oi ip => mkOrderItemView oi ip.2)
         ph.orderItems ph.itemsToOrder }))

/-- The `OrderItem` rows of one order, as loaded by `populate: [items]`. -/
def orderItemsOf (orderId : Nat) (s : Store) : List OrderItem :=
  s.orderItems.filter (fun oi => oi.orderId == orderId)

/-- The read-back view of a persisted order (`getOrderHistory` and
`getOrderById` share this mapping): each line's product summary is read
from the product entity the line currently references. -/
def orderView (o : Order) (s : Store) : OrderWithItems :=
  { id := o.id
    total := o.total
    status := o.status
    items := (orderItemsOf o.id s).filterMap (fun oi =>
      (s.products.find? (fun p => p.id == oi.productId)).map (fun p =>
        mkOrderItemView oi p)) }

/-- `getOrderById` (`order.service.ts`): `em.findOne(Order, { id, user })`;
the single `OrderNotFoundError` is thrown when nothing matches, whether the
id does not exist or the order belongs to another user. -/
def getOrderById (orderId u : Nat) (s : Store) : Except AppError OrderWithItems :=
  match s.orders.find? (fun o => o.id == orderId && o.userId == u) with
  | none => .error .orderNotFound
  | some o => .ok (orderView o s)

/-- The lines of the requesting user's cart for one product: the rows
`addToCart` consults through its `em.findOne(CartItem, ...)` lookup keyed
on the cart reference and the product reference. -/
def userProductLines (u productId : Nat) (s : Store) : List CartItem :=
  match findCart u s with
  | none => []
  | some cart =>
    s.cartItems.filter (fun it => it.cartId == cart.id && it.productId == productId)

/-- A sequence of `addToCart` calls by one user for one product, one
quantity per call, stopping at the first error. -/
def addSequence (u productId : Nat) (qs : List Nat) (s : Store) : Except AppError Store :=
  match qs with
  | [] => .ok s
  | q :: rest => (addToCart u productId q s).bind (addSequence u productId rest)

/-- Product A of the spec's checkout scenario: price 10.00. -/
def prodA : Product :=
  { id := 1, name := "A", description := some "product a", price := 10, categoryId := 1 }

/-- Product B of the spec's checkout scenario: price 5.00. -/
def prodB : Product :=
  { id := 2, name := "B", description := some "product b", price := 5, categoryId := 1 }

/-- The spec's checkout scenario: user 1's cart holds product A with
quantity 2 (line 11) and product B with quantity 3 (line 12). -/
def demoStore : Store :=
  { products := [prodA, prodB]
    carts := [{ id := 10, userId := 1 }]
    cartItems :=
      [ { id := 11, cartId := 10, productId := 1, quantity := 2 }
      , { id := 12, cartId := 10, productId := 2, quantity := 3 } ]
    orders := []
    orderItems := []
    nextId := 13 }

/-- A store holding the two demo products but no cart at all. -/
def freshStore : Store :=
  { products := [prodA, prodB]
    carts := []
    cartItems := []
    orders := []
    orderItems := []
    nextId := 3 }

/-- The committed state and working data after the first flush of the demo
selective checkout (user 1, selection containing only line 11). -/
def demoPhSel : PersistPhase :=
  (createOrderPersist 1 (some [11]) demoStore).toOption.getD default

/-- The store after a full checkout of the demo cart. -/
def demoAfterFull : Store :=
  ((createOrder 1 none demoStore).toOption.getD default).1

/-- `demoAfterFull` after a later edit of product 1's record (its name is
changed); the cart/order core treats the product table as externally
maintained, so a later state may hold a different product record under the
same id. -/
def renamedStore : Store :=
  { demoAfterFull with products := [{ prodA with name := "renamed" }, prodB] }

/-- The order view read back from `renamedStore`. -/
def renamedView : OrderWithItems :=
  (getOrderById 13 1 renamedStore).toOption.getD default

/- ------------------------------------------------------------------ -/
/- Helper lemmas                                                       -/
/- ------------------------------------------------------------------ -/

theorem foldl_add_map {α : Type} (f : α → Int) (l : List α) (a : Int) :
    l.foldl (fun t x => t + f x) a = a + (l.map f).sum := by
  induction l generalizing a with
  | nil => simp
  | cons x xs ih => simp [List.foldl_cons, ih, add_assoc]

theorem buildOrderItems_fst (orderId n : Nat) (items : List (CartItem × Product)) :
    (buildOrderItems orderId n items).1.map
        (fun oi => ((oi.orderId, oi.productId, oi.quantity, oi.price) :
          Nat × Nat × Nat × Int))
      = items.map (fun ip => (orderId, ip.2.id, ip.1.quantity, ip.2.price)) := by
  induction items generalizing n with
  | nil => simp [buildOrderItems]
  | cons ip rest ih => simp [buildOrderItems, ih]

theorem buildOrderItems_subtotals (orderId n : Nat) (items : List (CartItem × Product)) :
    (buildOrderItems orderId n items).1.map (fun oi => (oi.quantity : Int) * oi.price)
      = items.map (fun ip => (ip.1.quantity : Int) * ip.2.price) := by
  induction items generalizing n with
  | nil => simp [buildOrderItems]
  | cons ip rest ih => simp [buildOrderItems, ih]

theorem buildOrderItems_orderId (orderId n : Nat) (items : List (CartItem × Product)) :
    ∀ oi ∈ (buildOrderItems orderId n items).1, oi.orderId = orderId := by
  induction items generalizing n with
  | nil => simp [buildOrderItems]
  | cons ip rest ih =>
    intro oi hoi
    simp only [buildOrderItems, List.mem_cons] at hoi
    cases hoi with
    | inl h => simp [h]
    | inr h => exact ih (n + 1) oi h

/-- Inversion of a successful persist phase: the committed rows and the
working data in terms of the input store. -/
theorem createOrderPersist_ok_inv (u : Nat) (sel : Option (List Nat)) (s : Store)
    (ph : PersistPhase) (h : createOrderPersist u sel s = .ok ph) :
    ph.itemsToOrder = workingSet u sel s
      ∧ ph.order
          = { id := s.nextId, userId := u,
              total := calculateOrderTotal ph.itemsToOrder, status := .pending }
      ∧ ph.orderItems = (buildOrderItems s.nextId (s.nextId + 1) ph.itemsToOrder).1
      ∧ ph.committed
          = { s with
                orders := s.orders ++ [ph.order]
                orderItems := s.orderItems ++ ph.orderItems
                nextId := (buildOrderItems s.nextId (s.nextId + 1) ph.itemsToOrder).2 }
      ∧ (getCartItems u s) ≠ []
      ∧ (sel.isSome && ph.itemsToOrder.isEmpty) = false := by
  simp only [createOrderPersist] at h
  by_cases h1 : (getCartItems u s).isEmpty = true
  · rw [if_pos h1] at h
    exact Except.noConfusion h
  · rw [if_neg h1] at h
    by_cases h2 : (sel.isSome && (workingSet u sel s).isEmpty) = true
    · rw [if_pos h2] at h
      exact Except.noConfusion h
    · rw [if_neg h2] at h
      have hph := Except.ok.inj h
      subst hph
      refine ⟨rfl, rfl, rfl, rfl, ?_, ?_⟩
      · intro h0
        simp [h0] at h1
      · simpa using h2

theorem bool_eq_of_iff {a b : Bool} (h : a = true ↔ b = true) : a = b := by
  cases a <;> cases b <;> simp_all

theorem find?_of_filter_singleton {α : Type} {p : α → Bool} {l : List α} {x : α}
    (h : l.filter p = [x]) : l.find? p = some x := by
  induction l with
  | nil => simp at h
  | cons y ys ih =>
    by_cases hy : p y = true
    · rw [List.filter_cons_of_pos hy] at h
      obtain ⟨rfl, -⟩ := List.cons.inj h
      rw [List.find?_cons_of_pos _ hy]
    · rw [List.filter_cons_of_neg hy] at h
      rw [List.find?_cons_of_neg _ hy]
      exact ih h

theorem find?_append_of_none {α : Type} {p : α → Bool} {l₁ l₂ : List α}
    (h : l₁.find? p = none) : (l₁ ++ l₂).find? p = l₂.find? p := by
  induction l₁ with
  | nil => simp
  | cons y ys ih =>
    by_cases hy : p y = true
    · rw [List.find?_cons_of_pos _ hy] at h
      exact absurd h (by simp)
    · rw [List.find?_cons_of_neg _ hy] at h
      rw [List.cons_append, List.find?_cons_of_neg _ hy]
      exact ih h

/-- Each pair produced by the populate-join consists of a cart line of the
store and the product row it references. -/
theorem getCartItems_mem (u : Nat) (s : Store) :
    ∀ ip ∈ getCartItems u s,
      ip.1 ∈ s.cartItems ∧ ip.2 ∈ s.products ∧ ip.2.id = ip.1.productId := by
  intro ip hip
  unfold getCartItems at hip
  cases hc : findCart u s with
  | none => rw [hc] at hip; simp at hip
  | some cart =>
    rw [hc] at hip
    unfold cartLinesOf at hip
    rw [List.mem_filterMap] at hip
    obtain ⟨it, hit, hmap⟩ := hip
    cases hf : s.products.find? (fun p => p.id == it.productId) with
    | none => rw [hf] at hmap; simp at hmap
    | some p =>
      rw [hf] at hmap
      simp only [Option.map_some', Option.some.injEq] at hmap
      subst hmap
      refine ⟨(List.mem_filter.mp hit).1, List.mem_of_find?_eq_some hf, ?_⟩
      have := List.find?_some hf
      simpa using this

/-- The working set is always a subset of the loaded cart lines. -/
theorem workingSet_subset (u : Nat) (sel : Option (List Nat)) (s : Store) :
    ∀ ip ∈ workingSet u sel s, ip ∈ getCartItems u s := by
  intro ip hip
  cases sel with
  | none => exact hip
  | some ids => exact (List.mem_filter.mp hip).1

/-- Restricting a selection to the identifiers that match some loaded cart
line does not change the working set. -/
theorem workingSet_filter_ids (u : Nat) (ids : List Nat) (s : Store) :
    workingSet u
        (some (ids.filter (fun i => (getCartItems u s).any (fun ip => ip.1.id == i)))) s
      = workingSet u (some ids) s := by
  unfold workingSet
  apply List.filter_congr
  intro ip hip
  apply bool_eq_of_iff
  unfold includes
  simp only [List.any_eq_true, List.mem_filter, beq_iff_eq]
  constructor
  · rintro ⟨i, ⟨hi, -⟩, hbeq⟩
    exact ⟨i, hi, hbeq⟩
  · rintro ⟨i, hi, hbeq⟩
    exact ⟨i, ⟨hi, ⟨ip, hip, by simp [hbeq]⟩⟩, hbeq⟩

/- ------------------------------------------------------------------ -/
/- C7                                                                  -/
/- ------------------------------------------------------------------ -/

/-- C7: identifiers in the selection that match none of the user's cart
lines are silently dropped — `createOrder` behaves exactly as if the
selection had been restricted to the matching identifiers, with no
individual error — and when no identifier matches any line the call fails
with `NoValidItemsSelected` (a throw before any persist, so no `Order` and
no `OrderLine` is created). -/
theorem createOrder_selection_semantics (u : Nat) (ids : List Nat) (s : Store)
    (hne : getCartItems u s ≠ []) :
    (createOrder u (some ids) s
        = createOrder u
            (some (ids.filter (fun i => (getCartItems u s).any (fun ip => ip.1.id == i)))) s)
      ∧ (workingSet u (some ids) s = [] →
          createOrderPersist u (some ids) s = .error .noValidItemsSelected
            ∧ createOrder u (some ids) s = .error .noValidItemsSelected) := by
  have hws := workingSet_filter_ids u ids s
  constructor
  · have hrm : removeConsumedLines u (some ids)
        = removeConsumedLines u
            (some (ids.filter (fun i => (getCartItems u s).any (fun ip => ip.1.id == i)))) := by
      funext ph
      rfl
    unfold createOrder createOrderPersist
    rw [hws, hrm]
    simp only [Option.isSome_some, Bool.true_and]
  · intro hempty
    have h1 : (getCartItems u s).isEmpty = false := by
      simpa [List.isEmpty_iff] using hne
    have hpersist : createOrderPersist u (some ids) s = .error .noValidItemsSelected := by
      unfold createOrderPersist
      simp [h1, hempty]
    exact ⟨hpersist, by simp [createOrder, hpersist, Except.map]⟩

/-- C7 witness: in the demo store the selection containing only the
unmatched identifier 999 fails with `NoValidItemsSelected`. -/
theorem createOrder_selection_semantics_witness :
    createOrderPersist 1 (some [999]) demoStore = .error .noValidItemsSelected
      ∧ createOrder 1 (some [999]) demoStore = .error .noValidItemsSelected :=
  (createOrder_selection_semantics 1 [999] demoStore (by decide)).2 (by decide)

/- ------------------------------------------------------------------ -/
/- C5                                                                  -/
/- ------------------------------------------------------------------ -/

/-- C5: `calculateOrderTotal` over any list of cart lines equals the sum of
quantity times product price, and is `0` on the empty list; and for every
successful `createOrder` persist phase, the `Order` row written to the
store has `total` equal to the sum of its persisted order lines' subtotals
(quantity times snapshotted price). -/
theorem calculateOrderTotal_spec :
    (∀ items : List (CartItem × Product),
      calculateOrderTotal items
        = (items.map (fun ip => (ip.1.quantity : Int) * ip.2.price)).sum)
    ∧ calculateOrderTotal ([] : List (CartItem × Product)) = 0
    ∧ ∀ (u : Nat) (sel : Option (List Nat)) (s : Store) (ph : PersistPhase),
        createOrderPersist u sel s = .ok ph →
          ph.order.total
              = (ph.orderItems.map (fun oi => (oi.quantity : Int) * oi.price)).sum
            ∧ ph.order ∈ ph.committed.orders
            ∧ ∀ oi ∈ ph.orderItems, oi ∈ ph.committed.orderItems := by
  have hsum : ∀ items : List (CartItem × Product),
      calculateOrderTotal items
        = (items.map (fun ip => (ip.1.quantity : Int) * ip.2.price)).sum := by
    intro items
    simpa using foldl_add_map (fun ip : CartItem × Product =>
      (ip.1.quantity : Int) * ip.2.price) items 0
  refine ⟨hsum, by simp [calculateOrderTotal], ?_⟩
  intro u sel s ph h
  obtain ⟨hitems, horder, hois, hcommitted, -, -⟩ := createOrderPersist_ok_inv u sel s ph h
  refine ⟨?_, ?_, ?_⟩
  · rw [horder, hois, buildOrderItems_subtotals, hsum]
  · rw [hcommitted]
    simp
  · intro oi hoi
    rw [hcommitted]
    simp [hoi]

/-- C5 witness: the spec's full-checkout scenario instantiates the
persist-phase clause. -/
theorem calculateOrderTotal_spec_witness :
    demoPhSel.order.total
        = (demoPhSel.orderItems.map (fun oi => (oi.quantity : Int) * oi.price)).sum
      ∧ demoPhSel.order ∈ demoPhSel.committed.orders
      ∧ ∀ oi ∈ demoPhSel.orderItems, oi ∈ demoPhSel.committed.orderItems :=
  calculateOrderTotal_spec.2.2 1 (some [11]) demoStore demoPhSel (by decide)

/- ------------------------------------------------------------------ -/
/- C6                                                                  -/
/- ------------------------------------------------------------------ -/

/-- C6: when the user's cart has no lines at all (in particular when the
user has no cart, since `getCartItems` then returns the empty list), every
`createOrder` call fails with `CartIsEmpty` regardless of the selection;
the throw happens before anything is persisted, so the error result carries
no store: no `Order` and no `OrderLine` is created. -/
theorem createOrder_empty_cart (u : Nat) (s : Store) (h : getCartItems u s = []) :
    ∀ sel : Option (List Nat),
      createOrderPersist u sel s = .error .cartIsEmpty
        ∧ createOrder u sel s = .error .cartIsEmpty := by
  intro sel
  have hempty : (getCartItems u s).isEmpty = true := by simp [h]
  have hpersist : createOrderPersist u sel s = .error .cartIsEmpty := by
    unfold createOrderPersist
    simp [hempty]
  exact ⟨hpersist, by simp [createOrder, hpersist, Except.map]⟩

/-- C6 witness: user 2 has no cart in the demo store, and checkout with a
selection fails with `CartIsEmpty` all the same. -/
theorem createOrder_empty_cart_witness :
    createOrderPersist 2 (some [11]) demoStore = .error .cartIsEmpty
      ∧ createOrder 2 (some [11]) demoStore = .error .cartIsEmpty :=
  createOrder_empty_cart 2 demoStore (by decide) (some [11])

/- ------------------------------------------------------------------ -/
/- C10                                                                 -/
/- ------------------------------------------------------------------ -/

/-- C10: with a non-empty cart, a present but empty selection array is
truthy in JavaScript, so it is treated as a selection that matched nothing:
`createOrder` fails with `NoValidItemsSelected` instead of falling back to
full-cart checkout. -/
theorem createOrder_empty_selection (u : Nat) (s : Store)
    (hne : getCartItems u s ≠ []) :
    createOrder u (some []) s = .error .noValidItemsSelected := by
  have hempty : (getCartItems u s).isEmpty = false := by
    simpa [List.isEmpty_iff] using hne
  have hpersist : createOrderPersist u (some []) s = .error .noValidItemsSelected := by
    unfold createOrderPersist
    simp [hempty, workingSet, includes]
  simp [createOrder, hpersist, Except.map]

/-- C10 witness: the demo cart is non-empty and an empty selection fails. -/
theorem createOrder_empty_selection_witness :
    createOrder 1 (some []) demoStore = .error .noValidItemsSelected :=
  createOrder_empty_selection 1 demoStore (by decide)

/- ------------------------------------------------------------------ -/
/- C8                                                                  -/
/- ------------------------------------------------------------------ -/

/-- C8: `getOrderById` succeeds exactly on an order of the store that has
the requested id and is owned by the requesting user, and in every other
case — the id not existing or the order belonging to a different user — it
returns the one identical value `OrderNotFound`, so the two failure causes
are indistinguishable to the caller. -/
theorem getOrderById_owner_only (orderId u : Nat) (s : Store) :
    match getOrderById orderId u s with
    | .ok v => ∃ o, o ∈ s.orders ∧ o.id = orderId ∧ o.userId = u ∧ v = orderView o s
    | .error e =>
        e = .orderNotFound ∧ ∀ o ∈ s.orders, ¬(o.id = orderId ∧ o.userId = u) := by
  unfold getOrderById
  cases hf : s.orders.find? (fun o => o.id == orderId && o.userId == u) with
  | none =>
    refine ⟨rfl, ?_⟩
    intro o ho hcontra
    have := List.find?_eq_none.mp hf o ho
    simp [hcontra.1, hcontra.2] at this
  | some o =>
    have hm := List.mem_of_find?_eq_some hf
    have hp := List.find?_some hf
    simp only [Bool.and_eq_true, beq_iff_eq] at hp
    exact ⟨o, hm, hp.1, hp.2, rfl⟩

/- ------------------------------------------------------------------ -/
/- C4: counterexample and amended claim                                -/
/- ------------------------------------------------------------------ -/

/-- C4 counterexample: in the demo store user 2 has no cart; the claim says
`getCartWithItems` returns its zero-valued view without persisting a cart,
but the source's fallback branch calls `getOrCreateCart`, so after the call
user 2 does have a (persisted) cart row — the result store differs from the
input store. -/
theorem getCartWithItems_persists_counterexample :
    findCart 2 demoStore = none
      ∧ (getCartWithItems 2 demoStore).2
          = { id := 13, items := [], total := 0, itemCount := 0 }
      ∧ findCart 2 (getCartWithItems 2 demoStore).1 = some { id := 13, userId := 2 }
      ∧ (getCartWithItems 2 demoStore).1 ≠ demoStore := by
  decide

/-- C4 amended: for a user with no cart, `getCartWithItems` returns a
zero-valued view (no items, total 0, item count 0), but it does persist a
cart: the fallback calls `getOrCreateCart`, so the resulting store holds a
newly created cart row for the user. -/
theorem getCartWithItems_no_cart (u : Nat) (s : Store) (h : findCart u s = none) :
    getCartWithItems u s
      = ({ s with
             carts := s.carts ++ [{ id := s.nextId, userId := u }]
             nextId := s.nextId + 1 },
         { id := s.nextId, items := [], total := 0, itemCount := 0 }) := by
  unfold getCartWithItems getOrCreateCart
  simp [h]

/-- C4 witness: the amended claim at user 2 and the demo store. -/
theorem getCartWithItems_no_cart_witness :
    getCartWithItems 2 demoStore
      = ({ demoStore with
             carts := demoStore.carts ++ [{ id := demoStore.nextId, userId := 2 }]
             nextId := demoStore.nextId + 1 },
         { id := demoStore.nextId, items := [], total := 0, itemCount := 0 }) :=
  getCartWithItems_no_cart 2 demoStore (by decide)

/- ------------------------------------------------------------------ -/
/- C2                                                                  -/
/- ------------------------------------------------------------------ -/

/-- C2: evaluation at the failing input.  The source executes steps 3-6 in
two separate `em.flush()` transactions with no enclosing transaction: the
first commits the `Order` and `OrderItem` rows, the second commits the
cart-line deletions.  After the first commit of the demo selective checkout
the order (id 13) and its line are durably persisted while the consumed
cart line (id 11) is still in the cart — exactly the intermediate state the
claim rules out; only the second, separate flush removes it. -/
theorem createOrder_two_flushes :
    createOrderPersist 1 (some [11]) demoStore = .ok demoPhSel
      ∧ demoPhSel.committed.orders
          = [{ id := 13, userId := 1, total := 20, status := .pending }]
      ∧ demoPhSel.committed.orderItems
          = [{ id := 14, orderId := 13, productId := 1, quantity := 2, price := 10 }]
      ∧ demoPhSel.committed.cartItems = demoStore.cartItems
      ∧ (removeConsumedLines 1 (some [11]) demoPhSel).cartItems
          = [{ id := 12, cartId := 10, productId := 2, quantity := 3 }] := by
  decide

/- ------------------------------------------------------------------ -/
/- C3: counterexample                                                  -/
/- ------------------------------------------------------------------ -/

/-- C3 counterexample: after the demo full checkout the persisted order
lines carry only the product reference, quantity and price — no name or
description column exists on `OrderItem`.  Editing product 1's record
afterwards (name changed from "A" to "renamed") leaves every order line
unchanged, yet the order view read back by `getOrderById` shows the new
name: the recorded name follows the later product change, contradicting the
claim that id, name, description and price are all snapshotted.  The price
column, by contrast, still shows the snapshot 10. -/
theorem orderLine_name_not_snapshotted :
    demoAfterFull.orderItems
        = [ { id := 14, orderId := 13, productId := 1, quantity := 2, price := 10 }
          , { id := 15, orderId := 13, productId := 2, quantity := 3, price := 5 } ]
      ∧ renamedStore.orderItems = demoAfterFull.orderItems
      ∧ getOrderById 13 1 renamedStore = .ok renamedView
      ∧ renamedView.items.map (fun it => it.productName) = ["renamed", "B"]
      ∧ renamedView.items.map (fun it => it.price) = [(10 : Int), 5]
      ∧ prodA.name = "A" := by
  decide

/- ------------------------------------------------------------------ -/
/- C1                                                                  -/
/- ------------------------------------------------------------------ -/

theorem buildOrderItems_fields (orderId n : Nat) (items : List (CartItem × Product)) :
    (buildOrderItems orderId n items).1.map
        (fun oi => ((oi.productId, oi.quantity, oi.price) : Nat × Nat × Int))
      = items.map (fun ip => (ip.2.id, ip.1.quantity, ip.2.price)) := by
  induction items generalizing n with
  | nil => simp [buildOrderItems]
  | cons ip rest ih => simp [buildOrderItems, ih]

/-- C1: for every selective checkout whose selection matches at least one
of the user's cart lines, `createOrder` succeeds, the persisted order's
line set is exactly the working set — the subset of the user's cart lines
whose id was in the selection, in order, with each line's product, quantity
and loaded price — and a cart line remains in the store afterwards exactly
when it was there before and was not part of the working set: selected
lines are gone, unselected lines (of this user or any other) are untouched. -/
theorem createOrder_selective (u : Nat) (ids : List Nat) (s : Store)
    (hfresh : ∀ oi ∈ s.orderItems, oi.orderId ≠ s.nextId)
    (hW : workingSet u (some ids) s ≠ []) :
    ∃ s' v, createOrder u (some ids) s = .ok (s', v)
      ∧ (orderItemsOf s.nextId s').map
            (fun oi => ((oi.productId, oi.quantity, oi.price) : Nat × Nat × Int))
          = (workingSet u (some ids) s).map
              (fun ip => (ip.1.productId, ip.1.quantity, ip.2.price))
      ∧ (∀ it : CartItem, it ∈ s'.cartItems ↔
          it ∈ s.cartItems
            ∧ ¬ ∃ ip ∈ workingSet u (some ids) s, ip.1.id = it.id) := by
  have hne : getCartItems u s ≠ [] := by
    intro h0
    exact hW (by simp [workingSet, h0])
  have h1 : (getCartItems u s).isEmpty = false := by
    simpa [List.isEmpty_iff] using hne
  have h2 : (workingSet u (some ids) s).isEmpty = false := by
    simpa [List.isEmpty_iff] using hW
  have hpp : createOrderPersist u (some ids) s
      = .ok { committed :=
                { s with
                    orders := s.orders ++
                      [{ id := s.nextId, userId := u,
                         total := calculateOrderTotal (workingSet u (some ids) s),
                         status := .pending }]
                    orderItems := s.orderItems ++
                      (buildOrderItems s.nextId (s.nextId + 1) (workingSet u (some ids) s)).1
                    nextId := (buildOrderItems s.nextId (s.nextId + 1)
                      (workingSet u (some ids) s)).2 }
              order :=
                { id := s.nextId, userId := u,
                  total := calculateOrderTotal (workingSet u (some ids) s),
                  status := .pending }
              orderItems := (buildOrderItems s.nextId (s.nextId + 1)
                (workingSet u (some ids) s)).1
              itemsToOrder := workingSet u (some ids) s } := by
    unfold createOrderPersist
    simp [h1, h2]
  refine ⟨_, _, by rw [createOrder, hpp]; rfl, ?_, ?_⟩
  · have holdnil : s.orderItems.filter (fun oi => oi.orderId == s.nextId) = [] := by
      rw [List.filter_eq_nil_iff]
      intro oi hoi
      simpa using hfresh oi hoi
    have hnewall : (buildOrderItems s.nextId (s.nextId + 1)
        (workingSet u (some ids) s)).1.filter (fun oi => oi.orderId == s.nextId)
          = (buildOrderItems s.nextId (s.nextId + 1) (workingSet u (some ids) s)).1 := by
      rw [List.filter_eq_self]
      intro oi hoi
      simpa using buildOrderItems_orderId s.nextId (s.nextId + 1)
        (workingSet u (some ids) s) oi hoi
    show ((s.orderItems ++ (buildOrderItems s.nextId (s.nextId + 1)
        (workingSet u (some ids) s)).1).filter (fun oi => oi.orderId == s.nextId)).map _ = _
    rw [List.filter_append, holdnil, hnewall, List.nil_append, buildOrderItems_fields]
    apply List.map_congr_left
    intro ip hip
    have := (getCartItems_mem u s ip (workingSet_subset u (some ids) s ip hip)).2.2
    simp [this]
  · intro it
    show it ∈ List.filter _ s.cartItems ↔ _
    rw [List.mem_filter]
    simp [List.any_eq_true]

/-- C1 witness: the spec's selective-checkout scenario — selecting only
line 11 (product A, quantity 2) of the demo cart. -/
theorem createOrder_selective_witness :
    ∃ s' v, createOrder 1 (some [11]) demoStore = .ok (s', v)
      ∧ (orderItemsOf demoStore.nextId s').map
            (fun oi => ((oi.productId, oi.quantity, oi.price) : Nat × Nat × Int))
          = (workingSet 1 (some [11]) demoStore).map
              (fun ip => (ip.1.productId, ip.1.quantity, ip.2.price))
      ∧ (∀ it : CartItem, it ∈ s'.cartItems ↔
          it ∈ demoStore.cartItems
            ∧ ¬ ∃ ip ∈ workingSet 1 (some [11]) demoStore, ip.1.id = it.id) :=
  createOrder_selective 1 [11] demoStore (by decide) (by decide)

/- ------------------------------------------------------------------ -/
/- C3: amended claim                                                   -/
/- ------------------------------------------------------------------ -/

/-- C3 amended: each persisted `OrderLine` records the product reference
(id), the line's quantity, and a snapshot of the price of the product row
that was loaded with the cart lines in step 1 (a row of the pre-call
products table, so the price is not re-read at persistence time and does
not follow later product changes); the product's name and description are
not recorded on the line — order views read them from the live product
record. -/
theorem orderLine_snapshot_amended (u : Nat) (sel : Option (List Nat)) (s : Store)
    (ph : PersistPhase) (h : createOrderPersist u sel s = .ok ph) :
    ph.orderItems.map (fun oi => ((oi.productId, oi.quantity, oi.price) : Nat × Nat × Int))
        = ph.itemsToOrder.map (fun ip => (ip.1.productId, ip.1.quantity, ip.2.price))
      ∧ ∀ ip ∈ ph.itemsToOrder, ip.2 ∈ s.products ∧ ip.2.id = ip.1.productId := by
  obtain ⟨hitems, -, hois, -, -, -⟩ := createOrderPersist_ok_inv u sel s ph h
  have hsub : ∀ ip ∈ ph.itemsToOrder, ip.2 ∈ s.products ∧ ip.2.id = ip.1.productId := by
    intro ip hip
    rw [hitems] at hip
    have hm := getCartItems_mem u s ip (workingSet_subset u sel s ip hip)
    exact ⟨hm.2.1, hm.2.2⟩
  refine ⟨?_, hsub⟩
  rw [hois, buildOrderItems_fields]
  apply List.map_congr_left
  intro ip hip
  simp [(hsub ip hip).2]

/-- C3 witness: the amended claim at the demo selective checkout. -/
theorem orderLine_snapshot_amended_witness :
    demoPhSel.orderItems.map
        (fun oi => ((oi.productId, oi.quantity, oi.price) : Nat × Nat × Int))
        = demoPhSel.itemsToOrder.map (fun ip => (ip.1.productId, ip.1.quantity, ip.2.price))
      ∧ ∀ ip ∈ demoPhSel.itemsToOrder,
          ip.2 ∈ demoStore.products ∧ ip.2.id = ip.1.productId :=
  orderLine_snapshot_amended 1 (some [11]) demoStore demoPhSel (by decide)

/- ------------------------------------------------------------------ -/
/- C9                                                                  -/
/- ------------------------------------------------------------------ -/

theorem filter_map_pred_inv {α : Type} {p : α → Bool} {f : α → α}
    (hf : ∀ a, p (f a) = p a) (l : List α) :
    (l.map f).filter p = (l.filter p).map f := by
  induction l with
  | nil => rfl
  | cons x xs ih =>
    by_cases hx : p x = true
    · rw [List.map_cons, List.filter_cons_of_pos (by rw [hf]; exact hx),
        List.filter_cons_of_pos hx, List.map_cons, ih]
    · rw [List.map_cons, List.filter_cons_of_neg (by rw [hf]; exact hx),
        List.filter_cons_of_neg hx, ih]

/-- `addToCart` on a cart already holding exactly one line for the product:
the existing line's quantity is incremented, no new line appears. -/
theorem addToCart_existing (u pid q : Nat) (s : Store) (c : Cart) (x : CartItem)
    (hc : findCart u s = some c)
    (hx : s.cartItems.filter (fun it => it.cartId == c.id && it.productId == pid) = [x])
    (hp : (s.products.find? (fun p => p.id == pid)).isSome = true) :
    ∃ s', addToCart u pid q s = .ok s'
      ∧ findCart u s' = some c
      ∧ s'.cartItems.filter (fun it => it.cartId == c.id && it.productId == pid)
          = [{ x with quantity := x.quantity + q }]
      ∧ s'.products = s.products := by
  obtain ⟨p, hfind⟩ := Option.isSome_iff_exists.mp hp
  have hfound : s.cartItems.find? (fun it => it.cartId == c.id && it.productId == pid)
      = some x := find?_of_filter_singleton hx
  refine ⟨{ s with cartItems := s.cartItems.map (fun it =>
      if it.id == x.id then { it with quantity := it.quantity + q } else it) },
    ?_, hc, ?_, rfl⟩
  · simp only [addToCart, getOrCreateCart, hfind, hc, hfound]
  · have hpredinv : ∀ it : CartItem,
        ((fun it => it.cartId == c.id && it.productId == pid)
          (if it.id == x.id then { it with quantity := it.quantity + q } else it))
        = (fun it => it.cartId == c.id && it.productId == pid) it := by
      intro it
      by_cases hid : (it.id == x.id) = true <;> simp [hid]
    show (s.cartItems.map _).filter _ = _
    rw [filter_map_pred_inv hpredinv, hx]
    simp

/-- The first `addToCart` for a product the user's cart does not hold yet:
a fresh line with the given quantity is inserted (creating the cart first
when the user has none). -/
theorem addToCart_fresh (u pid q : Nat) (s : Store)
    (hp : (s.products.find? (fun p => p.id == pid)).isSome = true)
    (hline : userProductLines u pid s = [])
    (hfresh : ∀ it ∈ s.cartItems, it.cartId ≠ s.nextId) :
    ∃ s' c x, addToCart u pid q s = .ok s'
      ∧ findCart u s' = some c
      ∧ s'.cartItems.filter (fun it => it.cartId == c.id && it.productId == pid) = [x]
      ∧ x.quantity = q
      ∧ s'.products = s.products := by
  obtain ⟨p, hfind⟩ := Option.isSome_iff_exists.mp hp
  have hpid : p.id = pid := by simpa using List.find?_some hfind
  cases hc : findCart u s with
  | some c =>
    have hfil : s.cartItems.filter
        (fun it => it.cartId == c.id && it.productId == pid) = [] := by
      unfold userProductLines at hline
      rw [hc] at hline
      exact hline
    have hnone : s.cartItems.find?
        (fun it => it.cartId == c.id && it.productId == pid) = none := by
      rw [List.find?_eq_none]
      intro it hit
      have := List.filter_eq_nil_iff.mp hfil it hit
      simpa using this
    refine ⟨{ s with
                cartItems := s.cartItems ++ [⟨s.nextId, c.id, p.id, q⟩]
                nextId := s.nextId + 1 },
      c, ⟨s.nextId, c.id, p.id, q⟩, ?_, hc, ?_, rfl, rfl⟩
    · simp only [addToCart, getOrCreateCart, hfind, hc, hnone]
    · show (s.cartItems ++ [(⟨s.nextId, c.id, p.id, q⟩ : CartItem)]).filter _ = _
      rw [List.filter_append, hfil]
      simp [hpid]
  | none =>
    have hnone : s.cartItems.find?
        (fun it => it.cartId == s.nextId && it.productId == pid) = none := by
      rw [List.find?_eq_none]
      intro it hit
      simp [hfresh it hit]
    refine ⟨{ s with
                carts := s.carts ++ [⟨s.nextId, u⟩]
                cartItems := s.cartItems ++ [⟨s.nextId + 1, s.nextId, p.id, q⟩]
                nextId := s.nextId + 1 + 1 },
      ⟨s.nextId, u⟩, ⟨s.nextId + 1, s.nextId, p.id, q⟩, ?_, ?_, ?_, rfl, rfl⟩
    · simp only [addToCart, getOrCreateCart, hfind, hc, hnone]
    · show (s.carts ++ [(⟨s.nextId, u⟩ : Cart)]).find? (fun cc : Cart => cc.userId == u)
          = some (⟨s.nextId, u⟩ : Cart)
      rw [find?_append_of_none hc]
      simp
    · show (s.cartItems ++ [(⟨s.nextId + 1, s.nextId, p.id, q⟩ : CartItem)]).filter _ = _
      rw [List.filter_append]
      have hfil : s.cartItems.filter
          (fun it => it.cartId == (⟨s.nextId, u⟩ : Cart).id && it.productId == pid)
            = [] := by
        rw [List.filter_eq_nil_iff]
        intro it hit
        simp [hfresh it hit]
      rw [hfil]
      simp [hpid]

/-- Folding further `addToCart` calls over a cart holding exactly one line
for the product keeps exactly one line and accumulates the quantities. -/
theorem addSequence_existing (u pid : Nat) (qs : List Nat) (s : Store) (c : Cart)
    (x : CartItem)
    (hc : findCart u s = some c)
    (hx : s.cartItems.filter (fun it => it.cartId == c.id && it.productId == pid) = [x])
    (hp : (s.products.find? (fun p => p.id == pid)).isSome = true) :
    ∃ s' x', addSequence u pid qs s = .ok s'
      ∧ findCart u s' = some c
      ∧ s'.cartItems.filter (fun it => it.cartId == c.id && it.productId == pid) = [x']
      ∧ x'.quantity = x.quantity + qs.sum := by
  induction qs generalizing s x with
  | nil => exact ⟨s, x, rfl, hc, hx, by simp⟩
  | cons q rest ih =>
    obtain ⟨s1, hadd, hc1, hx1, hprod⟩ := addToCart_existing u pid q s c x hc hx hp
    obtain ⟨s', x', hseq, hc', hx', hq⟩ :=
      ih s1 { x with quantity := x.quantity + q } hc1 hx1 (by rw [hprod]; exact hp)
    refine ⟨s', x', ?_, hc', hx', ?_⟩
    · show (addToCart u pid q s).bind (addSequence u pid rest) = .ok s'
      rw [hadd]
      exact hseq
    · rw [hq]
      simp [List.sum_cons]
      omega

/-- C9: for every nonempty sequence of `addToCart` calls by one user for
one existing product, starting from a store where the user's cart (if any)
has no line for that product yet and where no stale cart line references
the id the new cart would get, every call succeeds, the cart afterwards
holds exactly one line for that product, and its quantity is the sum of
all the added quantities (zero quantities permitted). -/
theorem addToCart_same_product_accumulates (u pid q0 : Nat) (qs : List Nat) (s : Store)
    (hp : (s.products.find? (fun p => p.id == pid)).isSome = true)
    (hline : userProductLines u pid s = [])
    (hfresh : ∀ it ∈ s.cartItems, it.cartId ≠ s.nextId) :
    ∃ s' x, addSequence u pid (q0 :: qs) s = .ok s'
      ∧ userProductLines u pid s' = [x]
      ∧ x.quantity = (q0 :: qs).sum := by
  obtain ⟨s1, c, x, hadd, hc1, hx1, hq, hprod⟩ := addToCart_fresh u pid q0 s hp hline hfresh
  obtain ⟨s', x', hseq, hc', hx', hq'⟩ :=
    addSequence_existing u pid qs s1 c x hc1 hx1 (by rw [hprod]; exact hp)
  refine ⟨s', x', ?_, ?_, ?_⟩
  · show (addToCart u pid q0 s).bind (addSequence u pid qs) = .ok s'
    rw [hadd]
    exact hseq
  · unfold userProductLines
    rw [hc']
    exact hx'
  · rw [hq', hq]
    simp [List.sum_cons]

/-- C9 witness: three calls for product 1 with quantities 2, 0 and 3
starting from a store with no cart leave a single line of quantity 5. -/
theorem addToCart_same_product_accumulates_witness :
    ∃ s' x, addSequence 1 1 [2, 0, 3] freshStore = .ok s'
      ∧ userProductLines 1 1 s' = [x]
      ∧ x.quantity = ([2, 0, 3] : List Nat).sum :=
  addToCart_same_product_accumulates 1 1 2 [0, 3] freshStore (by decide) (by decide)
    (by decide)

end Imajin
